import Mathlib

/-!
Verification of the `pycoschooldata` wrapper (`pycoschooldata/core.py` and
`pycoschooldata/__init__.py`), a thin rpy2 bridge around the `coschooldata`
R package.  The Python functions are shallowly embedded: Python values that
the wrapper inspects become the inductive `PyVal`, Python exceptions become
`PyErr`, fallible Python code becomes `Except PyErr _`, the heterogeneous
foreign records returned by the R availability lookups become `RObj`, the
loaded R package becomes `RWorld` (a record of the foreign functions), and
the process-wide `_pkg` global becomes an explicit `Option RWorld` state
threaded through every operation.
-/

namespace PyCoSchoolData

/-- A Python value as far as `core.py` inspects values: an `int`, a `float`
(only integral floats occur in the year data, so the payload is an `Int`),
a `str`, or a list-like sequence (Python list / converted R vector), which
is subscriptable and iterable but is not an `int`, `float` or `str`. -/
inductive PyVal where
  | int (n : Int)
  | float (m : Int)
  | str (s : String)
  | seq (xs : List PyVal)
  deriving Repr

mutual

/-- Decidable equality for `PyVal` (manual, since the inductive nests
through `List`). -/
def pyValDecEq : (a b : PyVal) → Decidable (a = b)
  | PyVal.int m, PyVal.int n =>
    match decEq m n with
    | isTrue h => isTrue (by rw [h])
    | isFalse h => isFalse (fun hh => h (by cases hh; rfl))
  | PyVal.float m, PyVal.float n =>
    match decEq m n with
    | isTrue h => isTrue (by rw [h])
    | isFalse h => isFalse (fun hh => h (by cases hh; rfl))
  | PyVal.str s, PyVal.str t =>
    match decEq s t with
    | isTrue h => isTrue (by rw [h])
    | isFalse h => isFalse (fun hh => h (by cases hh; rfl))
  | PyVal.seq xs, PyVal.seq ys =>
    match pyValListDecEq xs ys with
    | isTrue h => isTrue (by rw [h])
    | isFalse h => isFalse (fun hh => h (by cases hh; rfl))
  | PyVal.int _, PyVal.float _ => isFalse (fun h => PyVal.noConfusion h)
  | PyVal.int _, PyVal.str _ => isFalse (fun h => PyVal.noConfusion h)
  | PyVal.int _, PyVal.seq _ => isFalse (fun h => PyVal.noConfusion h)
  | PyVal.float _, PyVal.int _ => isFalse (fun h => PyVal.noConfusion h)
  | PyVal.float _, PyVal.str _ => isFalse (fun h => PyVal.noConfusion h)
  | PyVal.float _, PyVal.seq _ => isFalse (fun h => PyVal.noConfusion h)
  | PyVal.str _, PyVal.int _ => isFalse (fun h => PyVal.noConfusion h)
  | PyVal.str _, PyVal.float _ => isFalse (fun h => PyVal.noConfusion h)
  | PyVal.str _, PyVal.seq _ => isFalse (fun h => PyVal.noConfusion h)
  | PyVal.seq _, PyVal.int _ => isFalse (fun h => PyVal.noConfusion h)
  | PyVal.seq _, PyVal.float _ => isFalse (fun h => PyVal.noConfusion h)
  | PyVal.seq _, PyVal.str _ => isFalse (fun h => PyVal.noConfusion h)

/-- Decidable equality for lists of `PyVal`. -/
def pyValListDecEq : (a b : List PyVal) → Decidable (a = b)
  | [], [] => isTrue rfl
  | [], _ :: _ => isFalse (fun h => List.noConfusion h)
  | _ :: _, [] => isFalse (fun h => List.noConfusion h)
  | x :: xs, y :: ys =>
    match pyValDecEq x y, pyValListDecEq xs ys with
    | isTrue h1, isTrue h2 => isTrue (by rw [h1, h2])
    | isFalse h1, _ =>
      isFalse (fun h => List.noConfusion h (fun hh _ => h1 hh))
    | _, isFalse h2 =>
      isFalse (fun h => List.noConfusion h (fun _ hh => h2 hh))

end

instance : DecidableEq PyVal := pyValDecEq

/-- The Python exceptions the wrapper code can raise or propagate. -/
inductive PyErr where
  | keyError (k : String)
  | lookupError (k : String)
  | typeError
  | valueError (msg : String)
  | indexError
  | attributeError
  | rError (msg : String)
  deriving DecidableEq, Repr

/-- An ordered list of string-keyed pairs: the embedding of a Python dict
(and of the pair-content of a foreign record). -/
abbrev PyDict := List (String × PyVal)

mutual

/-- Python `str(v)` for the values of `PyVal` (total, as in Python). -/
def pyStr : PyVal → String
  | PyVal.int n => toString n
  | PyVal.float m => toString m ++ ".0"
  | PyVal.str s => s
  | PyVal.seq xs => "[" ++ pyStrJoin xs ++ "]"

/-- Comma-joined rendering of a list of values, used by `pyStr` on sequences. -/
def pyStrJoin : List PyVal → String
  | [] => ""
  | [x] => pyStr x
  | x :: y :: xs => pyStr x ++ ", " ++ pyStrJoin (y :: xs)

end

/-- Python `int(v)`: identity on ints, truncation on (integral) floats,
decimal parsing on strings (`ValueError` on a non-numeric string), and
`TypeError` on a sequence. -/
def pyInt : PyVal → Except PyErr Int
  | PyVal.int n => Except.ok n
  | PyVal.float m => Except.ok m
  | PyVal.str s =>
    match s.toInt? with
    | some n => Except.ok n
    | none => Except.error (PyErr.valueError "invalid literal for int")
  | PyVal.seq _ => Except.error PyErr.typeError

/-- Python `v[0]`: head of a sequence (`IndexError` when empty), first
character of a string (`IndexError` when empty), `TypeError` on numbers. -/
def pyGetItem0 : PyVal → Except PyErr PyVal
  | PyVal.seq [] => Except.error PyErr.indexError
  | PyVal.seq (x :: _) => Except.ok x
  | PyVal.str s =>
    match s.data with
    | [] => Except.error PyErr.indexError
    | c :: _ => Except.ok (PyVal.str (String.mk [c]))
  | PyVal.int _ => Except.error PyErr.typeError
  | PyVal.float _ => Except.error PyErr.typeError

/-- The guarded extraction in the names branch of `get_available_years`
(core.py lines 153-156): `v = v[0]` only when
`hasattr(v, "__getitem__") and not isinstance(v, (int, float, str))`,
i.e. only on a sequence; scalars and strings pass through unchanged. -/
def extractFirstIfSeq : PyVal → Except PyErr PyVal
  | PyVal.seq [] => Except.error PyErr.indexError
  | PyVal.seq (x :: _) => Except.ok x
  | v => Except.ok v

/-- Python `list(v)`: the elements of a sequence, the characters of a
string, `TypeError` on numbers. -/
def pyList : PyVal → Except PyErr (List PyVal)
  | PyVal.seq xs => Except.ok xs
  | PyVal.str s => Except.ok (s.data.map (fun c => PyVal.str (String.mk [c])))
  | PyVal.int _ => Except.error PyErr.typeError
  | PyVal.float _ => Except.error PyErr.typeError

/-- First value stored under key `k`, if any. -/
def lookupKey (es : PyDict) (k : String) : Option PyVal :=
  (es.find? (fun e => e.1 == k)).map (fun e => e.2)

/-- Python dict subscript `d[k]`: `KeyError` when the key is missing. -/
def dictGet (es : PyDict) (k : String) : Except PyErr PyVal :=
  match lookupKey es k with
  | some v => Except.ok v
  | none => Except.error (PyErr.keyError k)

/-- rpy2 `r.rx2(k)`: extraction of the component named `k` from the pairs
of a foreign record; a lookup error when no component has that name. -/
def rx2Get (es : PyDict) (k : String) : Except PyErr PyVal :=
  match lookupKey es k with
  | some v => Except.ok v
  | none => Except.error (PyErr.lookupError k)

/-- Python `names.index(k)`: index of the first occurrence, `ValueError`
when absent. -/
def indexOfName (ns : List String) (k : String) : Except PyErr Nat :=
  match ns.findIdx? (fun n => n == k) with
  | some i => Except.ok i
  | none => Except.error (PyErr.valueError "is not in list")

/-- Positional subscript `r[i]` on a foreign record: the value of the
`i`-th pair, `IndexError` past the end. -/
def rGetIndex (es : PyDict) (i : Nat) : Except PyErr PyVal :=
  match es.get? i with
  | some e => Except.ok e.2
  | none => Except.error PyErr.indexError

/-- One step of building a Python dict from a pair: a later value for an
existing key overwrites in place, a new key is appended. -/
def insertPair (acc : PyDict) (p : String × PyVal) : PyDict :=
  if acc.any (fun q => q.1 == p.1) then
    acc.map (fun q => if q.1 == p.1 then (q.1, p.2) else q)
  else
    acc ++ [p]

/-- Python `dict(pairs)`: first-insertion order, last value wins. -/
def pyDictOfPairs (ps : PyDict) : PyDict :=
  ps.foldl insertPair []

/-- The `names` attribute of a foreign record, as the Python code probes it
(core.py lines 139-147): it may be absent, resolve directly to `None` or to
a list of names, or be a zero-argument callable returning either. -/
inductive NamesAttr where
  | absent
  | attrNone
  | attrList (ns : List String)
  | callableNone
  | callableList (ns : List String)
  deriving DecidableEq, Repr

/-- A foreign structured record as the shape-sniffing code can observe it:
whether it is a Python `dict` instance, whether it has an `rx2` method,
what its `names` attribute is, its ordered name/value pairs (used for dict
lookup, `rx2` lookup, positional subscripts and `dict(...)` conversion),
and whether `dict(...)` conversion is possible at all (`TypeError` when
the object is not a mapping or iterable of pairs). -/
structure RObj where
  isDict : Bool
  hasRx2 : Bool
  names : NamesAttr
  entries : PyDict
  dictable : Bool
  deriving DecidableEq, Repr

/-- Python `dict(r)` on a foreign record. -/
def dictConv (r : RObj) : Except PyErr PyDict :=
  if r.dictable then Except.ok (pyDictOfPairs r.entries)
  else Except.error PyErr.typeError

/-- `get_available_years` after the foreign call (core.py lines 127-167):
the shape-sniffing normalization of the foreign record into the
min/max-year dict.  Branches in source order: `isinstance(r, dict)`,
`hasattr(r, "rx2")`, `hasattr(r, "names")` (raising `ValueError` when the
resolved names are `None`), and last-resort `dict(r)` conversion.
Sequencing follows Python evaluation order within each branch. -/
def get_available_years_norm (r : RObj) : Except PyErr PyDict :=
  if r.isDict then
    (dictGet r.entries "min_year").bind fun mv =>
    (pyInt mv).bind fun a =>
    (dictGet r.entries "max_year").bind fun xv =>
    (pyInt xv).bind fun b =>
    Except.ok [("min_year", PyVal.int a), ("max_year", PyVal.int b)]
  else if r.hasRx2 then
    (rx2Get r.entries "min_year").bind fun mraw =>
    (pyGetItem0 mraw).bind fun mv =>
    (pyInt mv).bind fun a =>
    (rx2Get r.entries "max_year").bind fun xraw =>
    (pyGetItem0 xraw).bind fun xv =>
    (pyInt xv).bind fun b =>
    Except.ok [("min_year", PyVal.int a), ("max_year", PyVal.int b)]
  else
    match r.names with
    | NamesAttr.attrNone =>
        Except.error (PyErr.valueError "R result has no names attribute")
    | NamesAttr.callableNone =>
        Except.error (PyErr.valueError "R result has no names attribute")
    | NamesAttr.attrList ns =>
        (indexOfName ns "min_year").bind fun mi =>
        (indexOfName ns "max_year").bind fun ma =>
        (rGetIndex r.entries mi).bind fun mraw =>
        (rGetIndex r.entries ma).bind fun xraw =>
        (extractFirstIfSeq mraw).bind fun mv =>
        (extractFirstIfSeq xraw).bind fun xv =>
        (pyInt mv).bind fun a =>
        (pyInt xv).bind fun b =>
        Except.ok [("min_year", PyVal.int a), ("max_year", PyVal.int b)]
    | NamesAttr.callableList ns =>
        (indexOfName ns "min_year").bind fun mi =>
        (indexOfName ns "max_year").bind fun ma =>
        (rGetIndex r.entries mi).bind fun mraw =>
        (rGetIndex r.entries ma).bind fun xraw =>
        (extractFirstIfSeq mraw).bind fun mv =>
        (extractFirstIfSeq xraw).bind fun xv =>
        (pyInt mv).bind fun a =>
        (pyInt xv).bind fun b =>
        Except.ok [("min_year", PyVal.int a), ("max_year", PyVal.int b)]
    | NamesAttr.absent =>
        (dictConv r).bind fun d =>
        (dictGet d "min_year").bind fun mv =>
        (pyInt mv).bind fun a =>
        (dictGet d "max_year").bind fun xv =>
        (pyInt xv).bind fun b =>
        Except.ok [("min_year", PyVal.int a), ("max_year", PyVal.int b)]

/-- `get_available_assessment_years` after the foreign call (core.py lines
253-271): branches in source order `hasattr(r, "rx2")`,
`hasattr(r, "names")` (here `list(None)` raises `TypeError` — there is no
`None` guard in this function), and last-resort `dict(r)` returned
unchanged. -/
def get_available_assessment_years_norm (r : RObj) : Except PyErr PyDict :=
  if r.hasRx2 then
    (rx2Get r.entries "years").bind fun yraw =>
    (pyList yraw).bind fun ys =>
    (rx2Get r.entries "note").bind fun nraw =>
    (pyGetItem0 nraw).bind fun nv =>
    (rx2Get r.entries "assessment_system").bind fun araw =>
    (pyGetItem0 araw).bind fun av =>
    Except.ok [("years", PyVal.seq ys), ("note", PyVal.str (pyStr nv)),
      ("assessment_system", PyVal.str (pyStr av))]
  else
    match r.names with
    | NamesAttr.attrNone => Except.error PyErr.typeError
    | NamesAttr.callableNone => Except.error PyErr.typeError
    | NamesAttr.attrList ns =>
        (indexOfName ns "years").bind fun yi =>
        (rGetIndex r.entries yi).bind fun yraw =>
        (pyList yraw).bind fun ys =>
        (indexOfName ns "note").bind fun ni =>
        (rGetIndex r.entries ni).bind fun nraw =>
        (pyGetItem0 nraw).bind fun nv =>
        (indexOfName ns "assessment_system").bind fun ai =>
        (rGetIndex r.entries ai).bind fun araw =>
        (pyGetItem0 araw).bind fun av =>
        Except.ok [("years", PyVal.seq ys), ("note", PyVal.str (pyStr nv)),
          ("assessment_system", PyVal.str (pyStr av))]
    | NamesAttr.callableList ns =>
        (indexOfName ns "years").bind fun yi =>
        (rGetIndex r.entries yi).bind fun yraw =>
        (pyList yraw).bind fun ys =>
        (indexOfName ns "note").bind fun ni =>
        (rGetIndex r.entries ni).bind fun nraw =>
        (pyGetItem0 nraw).bind fun nv =>
        (indexOfName ns "assessment_system").bind fun ai =>
        (rGetIndex r.entries ai).bind fun araw =>
        (pyGetItem0 araw).bind fun av =>
        Except.ok [("years", PyVal.seq ys), ("note", PyVal.str (pyStr nv)),
          ("assessment_system", PyVal.str (pyStr av))]
    | NamesAttr.absent => dictConv r

/-- The keys of a returned dict, in order. -/
def keysOf (es : PyDict) : List String :=
  es.map (fun e => e.1)

/-- A pandas `DataFrame`: column names and rows of values. -/
structure DataFrame where
  cols : List String
  rows : List (List PyVal)
  deriving DecidableEq, Repr

/-- A tabular object returned by a foreign call: either already a pandas
`DataFrame` (the `isinstance` fast path in every fetch wrapper) or an R
tabular object whose `pandas2ri.rpy2py` conversion is the carried frame. -/
inductive RTab where
  | pyDF (d : DataFrame)
  | rdf (d : DataFrame)
  deriving DecidableEq, Repr

/-- The wrapper's result conversion (core.py lines 47-49 and analogues):
`r_df if isinstance(r_df, pd.DataFrame) else pandas2ri.rpy2py(r_df)`. -/
def toPandas : RTab → DataFrame
  | RTab.pyDF d => d
  | RTab.rdf d => d

/-- `robjects.IntVector`: an R integer vector built from a Python list. -/
structure IntVector where
  elts : List Int
  deriving DecidableEq, Repr

/-- The marshalling call `robjects.IntVector(end_years)`. -/
def intVectorOf (ys : List Int) : IntVector :=
  IntVector.mk ys

/-- An R data.frame produced by `pandas2ri.py2rpy` from a pandas frame. -/
structure RDF where
  pdf : DataFrame
  deriving DecidableEq, Repr

/-- The marshalling call `pandas2ri.py2rpy(df)`. -/
def py2rpy (d : DataFrame) : RDF :=
  RDF.mk d

/-- The loaded `coschooldata` R package handle: the record of foreign
functions the wrapper calls through it.  Each foreign call may raise. -/
structure RWorld where
  fetch_enr : Int → Except PyErr RTab
  fetch_enr_multi : IntVector → Except PyErr RTab
  tidy_enr : RDF → Except PyErr RTab
  fetch_assessment : Int → String → Bool → Except PyErr RTab
  fetch_assessment_multi : IntVector → String → Bool → Except PyErr RTab
  get_available_years : Except PyErr RObj
  get_available_assessment_years : Except PyErr RObj

/-- The wrapper's only persistent state: the module-global `_pkg`,
`None` until the first call. -/
abbrev PkgSt := Option RWorld

/-- `_get_pkg` (core.py lines 15-20): return the stored handle, or load the
package (`imp` is what `importr("coschooldata")` would return), store it
and return it. -/
def get_pkg (imp : RWorld) (s : PkgSt) : RWorld × PkgSt :=
  match s with
  | some p => (p, some p)
  | none => (imp, some imp)

/-- `fetch_enr` (core.py lines 23-49). -/
def fetch_enr (imp : RWorld) (end_year : Int) (s : PkgSt) :
    Except PyErr DataFrame × PkgSt :=
  let ps := get_pkg imp s
  ((ps.1.fetch_enr end_year).map toPandas, ps.2)

/-- `fetch_enr_multi` (core.py lines 52-77). -/
def fetch_enr_multi (imp : RWorld) (end_years : List Int) (s : PkgSt) :
    Except PyErr DataFrame × PkgSt :=
  let ps := get_pkg imp s
  ((ps.1.fetch_enr_multi (intVectorOf end_years)).map toPandas, ps.2)

/-- `tidy_enr` (core.py lines 80-106). -/
def tidy_enr (imp : RWorld) (df : DataFrame) (s : PkgSt) :
    Except PyErr DataFrame × PkgSt :=
  let ps := get_pkg imp s
  ((ps.1.tidy_enr (py2rpy df)).map toPandas, ps.2)

/-- `get_available_years` (core.py lines 109-167): one foreign call, then
the shape-sniffing normalization. -/
def get_available_years (imp : RWorld) (s : PkgSt) :
    Except PyErr PyDict × PkgSt :=
  let ps := get_pkg imp s
  (ps.1.get_available_years.bind get_available_years_norm, ps.2)

/-- `fetch_assessment` (core.py lines 170-200). -/
def fetch_assessment (imp : RWorld) (end_year : Int) (subject : String)
    (tidy : Bool) (s : PkgSt) : Except PyErr DataFrame × PkgSt :=
  let ps := get_pkg imp s
  ((ps.1.fetch_assessment end_year subject tidy).map toPandas, ps.2)

/-- `fetch_assessment_multi` (core.py lines 203-232). -/
def fetch_assessment_multi (imp : RWorld) (end_years : List Int)
    (subject : String) (tidy : Bool) (s : PkgSt) :
    Except PyErr DataFrame × PkgSt :=
  let ps := get_pkg imp s
  ((ps.1.fetch_assessment_multi (intVectorOf end_years) subject tidy).map
    toPandas, ps.2)

/-- `get_available_assessment_years` (core.py lines 235-271). -/
def get_available_assessment_years (imp : RWorld) (s : PkgSt) :
    Except PyErr PyDict × PkgSt :=
  let ps := get_pkg imp s
  (ps.1.get_available_assessment_years.bind
    get_available_assessment_years_norm, ps.2)

/-- A call to one of the seven public operations, with its arguments. -/
inductive OpCall where
  | fetchEnr (y : Int)
  | fetchEnrMulti (ys : List Int)
  | tidyEnr (d : DataFrame)
  | getAvailYears
  | fetchAssessment (y : Int) (subj : String) (td : Bool)
  | fetchAssessmentMulti (ys : List Int) (subj : String) (td : Bool)
  | getAvailAssessYears

/-- The result of a public operation: a dataframe-returning fetch or a
dict-returning availability lookup, either of which may raise. -/
inductive OpResult where
  | df (e : Except PyErr DataFrame)
  | dict (e : Except PyErr PyDict)

/-- Is the operation result a (possibly failed) dataframe result? -/
def isDFOutcome : OpResult → Bool
  | OpResult.df _ => true
  | OpResult.dict _ => false

/-- Dispatch one public operation against the wrapper state. -/
def runOp (imp : RWorld) (c : OpCall) (s : PkgSt) : OpResult × PkgSt :=
  match c with
  | OpCall.fetchEnr y =>
      let r := fetch_enr imp y s
      (OpResult.df r.1, r.2)
  | OpCall.fetchEnrMulti ys =>
      let r := fetch_enr_multi imp ys s
      (OpResult.df r.1, r.2)
  | OpCall.tidyEnr d =>
      let r := tidy_enr imp d s
      (OpResult.df r.1, r.2)
  | OpCall.getAvailYears =>
      let r := get_available_years imp s
      (OpResult.dict r.1, r.2)
  | OpCall.fetchAssessment y subj td =>
      let r := fetch_assessment imp y subj td s
      (OpResult.df r.1, r.2)
  | OpCall.fetchAssessmentMulti ys subj td =>
      let r := fetch_assessment_multi imp ys subj td s
      (OpResult.df r.1, r.2)
  | OpCall.getAvailAssessYears =>
      let r := get_available_assessment_years imp s
      (OpResult.dict r.1, r.2)

/-- The wrapper state after a sequence of public operations. -/
def runOps (imp : RWorld) (cs : List OpCall) (s : PkgSt) : PkgSt :=
  match cs with
  | [] => s
  | c :: rest => runOps imp rest (runOp imp c s).2

/-- How many times `importr` runs along a sequence of operations: every
operation enters `_get_pkg`, which calls `importr` exactly when the stored
handle is still `None`. -/
def loadCount (imp : RWorld) (cs : List OpCall) (s : PkgSt) : Nat :=
  match cs with
  | [] => 0
  | c :: rest =>
    (if s.isNone then 1 else 0) + loadCount imp rest (runOp imp c s).2

/-- An argument as marshalled into the foreign runtime. -/
inductive RArg where
  | intArg (n : Int)
  | strArg (s : String)
  | boolArg (b : Bool)
  | vecArg (v : IntVector)
  | rdfArg (d : RDF)
  deriving DecidableEq, Repr

/-- The argument list each operation passes to its single foreign function,
transliterated from the call sites in core.py (lines 46, 73-74, 102-103,
126, 197, 228-229, 252). -/
def forwardedArgs : OpCall → List RArg
  | OpCall.fetchEnr y => [RArg.intArg y]
  | OpCall.fetchEnrMulti ys => [RArg.vecArg (intVectorOf ys)]
  | OpCall.tidyEnr d => [RArg.rdfArg (py2rpy d)]
  | OpCall.getAvailYears => []
  | OpCall.fetchAssessment y subj td =>
      [RArg.intArg y, RArg.strArg subj, RArg.boolArg td]
  | OpCall.fetchAssessmentMulti ys subj td =>
      [RArg.vecArg (intVectorOf ys), RArg.strArg subj, RArg.boolArg td]
  | OpCall.getAvailAssessYears => []

/-- Is a marshalled argument a converted dataframe? -/
def isRdfArg : RArg → Bool
  | RArg.rdfArg _ => true
  | _ => false

/-- The public name of each operation, as exported by `__init__.py`. -/
def opName : OpCall → String
  | OpCall.fetchEnr _ => "fetch_enr"
  | OpCall.fetchEnrMulti _ => "fetch_enr_multi"
  | OpCall.tidyEnr _ => "tidy_enr"
  | OpCall.getAvailYears => "get_available_years"
  | OpCall.fetchAssessment _ _ _ => "fetch_assessment"
  | OpCall.fetchAssessmentMulti _ _ _ => "fetch_assessment_multi"
  | OpCall.getAvailAssessYears => "get_available_assessment_years"

/-- The `__all__` list of `pycoschooldata/__init__.py` (lines 19-27). -/
def dunder_all : List String :=
  ["fetch_enr", "fetch_enr_multi", "tidy_enr", "get_available_years",
   "fetch_assessment", "fetch_assessment_multi",
   "get_available_assessment_years"]

/-- The `__version__` string of `pycoschooldata/__init__.py` (line 18). -/
def version : String := "0.1.0"

/-- One sample call per public operation, in export order. -/
def sampleCalls : List OpCall :=
  [OpCall.fetchEnr 2025, OpCall.fetchEnrMulti [2024, 2025],
   OpCall.tidyEnr (DataFrame.mk [] []), OpCall.getAvailYears,
   OpCall.fetchAssessment 2024 "all" true,
   OpCall.fetchAssessmentMulti [2023, 2024] "all" true,
   OpCall.getAvailAssessYears]

/-- The dict branch of `get_available_years` (core.py lines 128-132),
applied to the record's pairs. -/
def yearsByDict (es : PyDict) : Except PyErr PyDict :=
  (dictGet es "min_year").bind fun mv =>
  (pyInt mv).bind fun a =>
  (dictGet es "max_year").bind fun xv =>
  (pyInt xv).bind fun b =>
  Except.ok [("min_year", PyVal.int a), ("max_year", PyVal.int b)]

/-- The rx2 branch of `get_available_years` (core.py lines 133-138). -/
def yearsByRx2 (es : PyDict) : Except PyErr PyDict :=
  (rx2Get es "min_year").bind fun mraw =>
  (pyGetItem0 mraw).bind fun mv =>
  (pyInt mv).bind fun a =>
  (rx2Get es "max_year").bind fun xraw =>
  (pyGetItem0 xraw).bind fun xv =>
  (pyInt xv).bind fun b =>
  Except.ok [("min_year", PyVal.int a), ("max_year", PyVal.int b)]

/-- The names branch of `get_available_years` (core.py lines 147-160),
given the resolved list of names. -/
def yearsByNames (es : PyDict) (ns : List String) : Except PyErr PyDict :=
  (indexOfName ns "min_year").bind fun mi =>
  (indexOfName ns "max_year").bind fun ma =>
  (rGetIndex es mi).bind fun mraw =>
  (rGetIndex es ma).bind fun xraw =>
  (extractFirstIfSeq mraw).bind fun mv =>
  (extractFirstIfSeq xraw).bind fun xv =>
  (pyInt mv).bind fun a =>
  (pyInt xv).bind fun b =>
  Except.ok [("min_year", PyVal.int a), ("max_year", PyVal.int b)]

/-- The last-resort branch of `get_available_years` (core.py lines
161-167): `dict(r)` conversion then key lookup. -/
def yearsByPairs (r : RObj) : Except PyErr PyDict :=
  (dictConv r).bind fun d =>
  (dictGet d "min_year").bind fun mv =>
  (pyInt mv).bind fun a =>
  (dictGet d "max_year").bind fun xv =>
  (pyInt xv).bind fun b =>
  Except.ok [("min_year", PyVal.int a), ("max_year", PyVal.int b)]

/-- The rx2 branch of `get_available_assessment_years` (core.py lines
254-259). -/
def assessByRx2 (es : PyDict) : Except PyErr PyDict :=
  (rx2Get es "years").bind fun yraw =>
  (pyList yraw).bind fun ys =>
  (rx2Get es "note").bind fun nraw =>
  (pyGetItem0 nraw).bind fun nv =>
  (rx2Get es "assessment_system").bind fun araw =>
  (pyGetItem0 araw).bind fun av =>
  Except.ok [("years", PyVal.seq ys), ("note", PyVal.str (pyStr nv)),
    ("assessment_system", PyVal.str (pyStr av))]

/-- The names branch of `get_available_assessment_years` (core.py lines
264-269), given the resolved list of names. -/
def assessByNames (es : PyDict) (ns : List String) : Except PyErr PyDict :=
  (indexOfName ns "years").bind fun yi =>
  (rGetIndex es yi).bind fun yraw =>
  (pyList yraw).bind fun ys =>
  (indexOfName ns "note").bind fun ni =>
  (rGetIndex es ni).bind fun nraw =>
  (pyGetItem0 nraw).bind fun nv =>
  (indexOfName ns "assessment_system").bind fun ai =>
  (rGetIndex es ai).bind fun araw =>
  (pyGetItem0 araw).bind fun av =>
  Except.ok [("years", PyVal.seq ys), ("note", PyVal.str (pyStr nv)),
    ("assessment_system", PyVal.str (pyStr av))]

/-- Modelled from the spec: normalize a foreign record "by trying, in
order, three different foreign record shapes (indexable-by-name, mapping,
generic iterable-of-pairs) until one succeeds" — each shape extraction is
attempted in that order, a failed shape falls through to the next, and the
first success gives the result (year-range variant). -/
def spec_shape_order_years (r : RObj) : Except PyErr PyDict :=
  match (if r.hasRx2 then yearsByRx2 r.entries
         else Except.error PyErr.attributeError) with
  | Except.ok v => Except.ok v
  | Except.error _ =>
    match (if r.isDict then yearsByDict r.entries
           else Except.error PyErr.attributeError) with
    | Except.ok v => Except.ok v
    | Except.error _ => yearsByPairs r

/-- A well-formed year-range record as the R package returns it: an rx2
named list with one-element integer vectors. -/
def okYearsObj : RObj :=
  RObj.mk false true NamesAttr.absent
    [("min_year", PyVal.seq [PyVal.int 1991]),
     ("max_year", PyVal.seq [PyVal.int 2025])] true

/-- A well-formed assessment-availability record as the R package returns
it: an rx2 named list with a years vector and one-element string vectors. -/
def okAssessObj : RObj :=
  RObj.mk false true NamesAttr.absent
    [("years", PyVal.seq [PyVal.int 2016, PyVal.int 2017, PyVal.int 2018,
       PyVal.int 2019, PyVal.int 2021, PyVal.int 2022, PyVal.int 2023,
       PyVal.int 2024]),
     ("note", PyVal.seq [PyVal.str "No 2020 data due to COVID-19"]),
     ("assessment_system", PyVal.seq [PyVal.str "CMAS"])] true

/-- A record that is both a `dict` instance and rx2-indexable, with
one-element vector values: the code's dict-first branch fails on `int` of
a list, while rx2-first extraction would succeed. -/
def dictAndRx2Obj : RObj :=
  RObj.mk true true NamesAttr.absent
    [("min_year", PyVal.seq [PyVal.int 1991]),
     ("max_year", PyVal.seq [PyVal.int 2025])] true

/-- A foreign record that is neither a dict nor rx2-indexable nor
names-carrying, whose pair content has a single foreign key. -/
def fooPairsObj : RObj :=
  RObj.mk false false NamesAttr.absent [("foo", PyVal.int 1)] true

/-- A small concrete dataframe for sample worlds. -/
def demoDF : DataFrame :=
  DataFrame.mk ["district_name", "pk_12_count"]
    [[PyVal.str "Denver", PyVal.int 90000]]

/-- A sample loaded package whose calls all succeed: fetches return an R
data.frame, the availability lookups return the well-formed records. -/
def demoWorld : RWorld :=
  RWorld.mk (fun _ => Except.ok (RTab.rdf demoDF))
    (fun _ => Except.ok (RTab.rdf demoDF))
    (fun _ => Except.ok (RTab.rdf demoDF))
    (fun _ _ _ => Except.ok (RTab.rdf demoDF))
    (fun _ _ _ => Except.ok (RTab.rdf demoDF))
    (Except.ok okYearsObj)
    (Except.ok okAssessObj)

/-- A loaded package every one of whose foreign functions raises `e`. -/
def errWorld (e : PyErr) : RWorld :=
  RWorld.mk (fun _ => Except.error e) (fun _ => Except.error e)
    (fun _ => Except.error e) (fun _ _ _ => Except.error e)
    (fun _ _ _ => Except.error e) (Except.error e) (Except.error e)

/-- The outcome an operation must produce when its foreign call raised
`e` and the error propagated unchanged. -/
def errOutcome (c : OpCall) (e : PyErr) : OpResult :=
  match c with
  | OpCall.getAvailYears => OpResult.dict (Except.error e)
  | OpCall.getAvailAssessYears => OpResult.dict (Except.error e)
  | _ => OpResult.df (Except.error e)

/-- Inversion for a successful `Except.bind`. -/
theorem except_bind_ok {α β : Type} {x : Except PyErr α}
    {f : α → Except PyErr β} {b : β} (h : x.bind f = Except.ok b) :
    ∃ a, x = Except.ok a ∧ f a = Except.ok b := by
  cases x with
  | error e => simp [Except.bind] at h
  | ok a => exact ⟨a, rfl, by simpa [Except.bind] using h⟩

/-- `_get_pkg` returns the stored handle when present, the freshly loaded
one otherwise, and afterwards the handle is always stored. -/
theorem get_pkg_eq (imp : RWorld) (s : PkgSt) :
    get_pkg imp s = (s.getD imp, some (s.getD imp)) := by
  cases s <;> rfl

/-- Every public operation's effect on the wrapper state is exactly
`_get_pkg`'s: the state afterwards holds the previously stored handle, or
the freshly loaded one when there was none. -/
theorem runOp_state (imp : RWorld) (c : OpCall) (s : PkgSt) :
    (runOp imp c s).2 = some (s.getD imp) := by
  cases c <;> cases s <;> rfl

/-- Once the handle is stored, no sequence of operations changes it. -/
theorem runOps_some (imp p : RWorld) (cs : List OpCall) :
    runOps imp cs (some p) = some p := by
  induction cs with
  | nil => rfl
  | cons c rest ih =>
    show runOps imp rest (runOp imp c (some p)).2 = some p
    rw [runOp_state]
    exact ih

/-- Once the handle is stored, no sequence of operations runs `importr`. -/
theorem loadCount_some (imp p : RWorld) (cs : List OpCall) :
    loadCount imp cs (some p) = 0 := by
  induction cs with
  | nil => rfl
  | cons c rest ih =>
    show (if (some p : PkgSt).isNone then 1 else 0) +
      loadCount imp rest (runOp imp c (some p)).2 = 0
    rw [runOp_state]
    simpa using ih

/-- Every successful run of the year-range normalization returns the
two-entry min/max dict with integer payloads. -/
theorem years_ok_shape (r : RObj) (res : PyDict)
    (h : get_available_years_norm r = Except.ok res) :
    ∃ a b : Int,
      res = [("min_year", PyVal.int a), ("max_year", PyVal.int b)] := by
  unfold get_available_years_norm at h
  by_cases hd : r.isDict = true
  · rw [if_pos hd] at h
    obtain ⟨mv, _, h⟩ := except_bind_ok h
    obtain ⟨a, _, h⟩ := except_bind_ok h
    obtain ⟨xv, _, h⟩ := except_bind_ok h
    obtain ⟨b, _, h⟩ := except_bind_ok h
    exact ⟨a, b, (Except.ok.inj h).symm⟩
  · rw [if_neg hd] at h
    by_cases hr : r.hasRx2 = true
    · rw [if_pos hr] at h
      obtain ⟨m1, _, h⟩ := except_bind_ok h
      obtain ⟨m2, _, h⟩ := except_bind_ok h
      obtain ⟨a, _, h⟩ := except_bind_ok h
      obtain ⟨x1, _, h⟩ := except_bind_ok h
      obtain ⟨x2, _, h⟩ := except_bind_ok h
      obtain ⟨b, _, h⟩ := except_bind_ok h
      exact ⟨a, b, (Except.ok.inj h).symm⟩
    · rw [if_neg hr] at h
      cases hn : r.names with
      | attrNone => rw [hn] at h; exact Except.noConfusion h
      | callableNone => rw [hn] at h; exact Except.noConfusion h
      | attrList ns =>
        rw [hn] at h
        obtain ⟨mi, _, h⟩ := except_bind_ok h
        obtain ⟨ma, _, h⟩ := except_bind_ok h
        obtain ⟨mr, _, h⟩ := except_bind_ok h
        obtain ⟨xr, _, h⟩ := except_bind_ok h
        obtain ⟨mv, _, h⟩ := except_bind_ok h
        obtain ⟨xv, _, h⟩ := except_bind_ok h
        obtain ⟨a, _, h⟩ := except_bind_ok h
        obtain ⟨b, _, h⟩ := except_bind_ok h
        exact ⟨a, b, (Except.ok.inj h).symm⟩
      | callableList ns =>
        rw [hn] at h
        obtain ⟨mi, _, h⟩ := except_bind_ok h
        obtain ⟨ma, _, h⟩ := except_bind_ok h
        obtain ⟨mr, _, h⟩ := except_bind_ok h
        obtain ⟨xr, _, h⟩ := except_bind_ok h
        obtain ⟨mv, _, h⟩ := except_bind_ok h
        obtain ⟨xv, _, h⟩ := except_bind_ok h
        obtain ⟨a, _, h⟩ := except_bind_ok h
        obtain ⟨b, _, h⟩ := except_bind_ok h
        exact ⟨a, b, (Except.ok.inj h).symm⟩
      | absent =>
        rw [hn] at h
        obtain ⟨d, _, h⟩ := except_bind_ok h
        obtain ⟨mv, _, h⟩ := except_bind_ok h
        obtain ⟨a, _, h⟩ := except_bind_ok h
        obtain ⟨xv, _, h⟩ := except_bind_ok h
        obtain ⟨b, _, h⟩ := except_bind_ok h
        exact ⟨a, b, (Except.ok.inj h).symm⟩

/-- On the rx2 and names branches, a successful run of the
assessment-availability normalization returns the documented three keys. -/
theorem assess_ok_keys (r : RObj) (res : PyDict)
    (hbr : r.hasRx2 = true ∨ r.names ≠ NamesAttr.absent)
    (h : get_available_assessment_years_norm r = Except.ok res) :
    keysOf res = ["years", "note", "assessment_system"] := by
  unfold get_available_assessment_years_norm at h
  by_cases hrx : r.hasRx2 = true
  · rw [if_pos hrx] at h
    obtain ⟨y1, _, h⟩ := except_bind_ok h
    obtain ⟨ys, _, h⟩ := except_bind_ok h
    obtain ⟨n1, _, h⟩ := except_bind_ok h
    obtain ⟨nv, _, h⟩ := except_bind_ok h
    obtain ⟨a1, _, h⟩ := except_bind_ok h
    obtain ⟨av, _, h⟩ := except_bind_ok h
    have hres := Except.ok.inj h
    subst hres
    rfl
  · rw [if_neg hrx] at h
    rcases hbr with hb | hb
    · exact absurd hb hrx
    · cases hn : r.names with
      | absent => exact absurd hn hb
      | attrNone => rw [hn] at h; exact Except.noConfusion h
      | callableNone => rw [hn] at h; exact Except.noConfusion h
      | attrList ns =>
        rw [hn] at h
        obtain ⟨yi, _, h⟩ := except_bind_ok h
        obtain ⟨y1, _, h⟩ := except_bind_ok h
        obtain ⟨ys, _, h⟩ := except_bind_ok h
        obtain ⟨ni, _, h⟩ := except_bind_ok h
        obtain ⟨n1, _, h⟩ := except_bind_ok h
        obtain ⟨nv, _, h⟩ := except_bind_ok h
        obtain ⟨ai, _, h⟩ := except_bind_ok h
        obtain ⟨a1, _, h⟩ := except_bind_ok h
        obtain ⟨av, _, h⟩ := except_bind_ok h
        have hres := Except.ok.inj h
        subst hres
        rfl
      | callableList ns =>
        rw [hn] at h
        obtain ⟨yi, _, h⟩ := except_bind_ok h
        obtain ⟨y1, _, h⟩ := except_bind_ok h
        obtain ⟨ys, _, h⟩ := except_bind_ok h
        obtain ⟨ni, _, h⟩ := except_bind_ok h
        obtain ⟨n1, _, h⟩ := except_bind_ok h
        obtain ⟨nv, _, h⟩ := except_bind_ok h
        obtain ⟨ai, _, h⟩ := except_bind_ok h
        obtain ⟨a1, _, h⟩ := except_bind_ok h
        obtain ⟨av, _, h⟩ := except_bind_ok h
        have hres := Except.ok.inj h
        subst hres
        rfl

/-- C1 counterexample: the claim says both availability lookups try the
three shapes in the order indexable-by-name, mapping, iterable-of-pairs,
returning the first success.  On a record that is both a dict instance and
rx2-indexable, with one-element vector values, `get_available_years`
commits to the mapping branch first and fails with `TypeError` on
`int` of a vector, while the claimed indexable-by-name-first normalization
succeeds. -/
theorem shape_order_counterexample :
    get_available_years_norm dictAndRx2Obj = Except.error PyErr.typeError ∧
    spec_shape_order_years dictAndRx2Obj =
      Except.ok [("min_year", PyVal.int 1991), ("max_year", PyVal.int 2025)] :=
  ⟨rfl, rfl⟩

/-- C1 (amended): `get_available_years` selects among four shapes by
sniffing, in order: mapping (dict instance), rx2-indexable, names
attribute with positional indexing (raising when the names resolve to
`None`), then `dict(...)` conversion of the pairs;
`get_available_assessment_years` selects among three shapes in order
rx2-indexable, names attribute, then `dict(...)` conversion returned
unchanged.  Each function commits to the first shape whose test matches
and returns that branch's result, errors included, with no fall-through
on failure. -/
theorem shape_branch_selection (es : PyDict) (na : NamesAttr)
    (ns : List String) (b d0 : Bool) :
    get_available_years_norm (RObj.mk true b na es d0) = yearsByDict es ∧
    get_available_years_norm (RObj.mk false true na es d0) = yearsByRx2 es ∧
    get_available_years_norm
        (RObj.mk false false (NamesAttr.attrList ns) es d0) =
      yearsByNames es ns ∧
    get_available_years_norm
        (RObj.mk false false (NamesAttr.callableList ns) es d0) =
      yearsByNames es ns ∧
    get_available_years_norm (RObj.mk false false NamesAttr.attrNone es d0) =
      Except.error (PyErr.valueError "R result has no names attribute") ∧
    get_available_years_norm (RObj.mk false false NamesAttr.absent es d0) =
      yearsByPairs (RObj.mk false false NamesAttr.absent es d0) ∧
    get_available_assessment_years_norm (RObj.mk b true na es d0) =
      assessByRx2 es ∧
    get_available_assessment_years_norm
        (RObj.mk b false (NamesAttr.attrList ns) es d0) =
      assessByNames es ns ∧
    get_available_assessment_years_norm
        (RObj.mk b false NamesAttr.absent es d0) =
      dictConv (RObj.mk b false NamesAttr.absent es d0) :=
  ⟨rfl, rfl, rfl, rfl, rfl, rfl, rfl, rfl, rfl⟩

/-- C2 counterexample: the last-resort branch of
`get_available_assessment_years` returns `dict(r_result)` unchanged, so a
foreign record with a stray key is accepted and returned with that key
instead of the documented three. -/
theorem assessment_keys_counterexample :
    ¬ (∀ (r : RObj) (res : PyDict),
        get_available_assessment_years_norm r = Except.ok res →
        keysOf res = ["years", "note", "assessment_system"]) := by
  intro hall
  have hfoo := hall fooPairsObj [("foo", PyVal.int 1)] rfl
  exact absurd hfoo (by decide)

/-- C2 (amended): every successful return of `get_available_years` has
exactly the keys min_year and max_year; every successful return of
`get_available_assessment_years` from the rx2 or names branches has
exactly the keys years, note and assessment_system, while the last-resort
branch returns the record's own keys. -/
theorem output_keys_on_documented_branches (r1 r2 : RObj)
    (res1 res2 : PyDict)
    (h1 : get_available_years_norm r1 = Except.ok res1)
    (hbr : r2.hasRx2 = true ∨ r2.names ≠ NamesAttr.absent)
    (h2 : get_available_assessment_years_norm r2 = Except.ok res2) :
    keysOf res1 = ["min_year", "max_year"] ∧
    keysOf res2 = ["years", "note", "assessment_system"] := by
  constructor
  · obtain ⟨a, b, hres⟩ := years_ok_shape r1 res1 h1
    rw [hres]
    rfl
  · exact assess_ok_keys r2 res2 hbr h2

/-- Witness for C2 (amended): the well-formed rx2 records are normalized
to dicts with exactly the documented keys. -/
theorem output_keys_witness :
    keysOf [("min_year", PyVal.int 1991), ("max_year", PyVal.int 2025)] =
      ["min_year", "max_year"] ∧
    keysOf [("years", PyVal.seq [PyVal.int 2016, PyVal.int 2017,
        PyVal.int 2018, PyVal.int 2019, PyVal.int 2021, PyVal.int 2022,
        PyVal.int 2023, PyVal.int 2024]),
      ("note", PyVal.str "No 2020 data due to COVID-19"),
      ("assessment_system", PyVal.str "CMAS")] =
      ["years", "note", "assessment_system"] :=
  output_keys_on_documented_branches okYearsObj okAssessObj
    [("min_year", PyVal.int 1991), ("max_year", PyVal.int 2025)]
    [("years", PyVal.seq [PyVal.int 2016, PyVal.int 2017, PyVal.int 2018,
        PyVal.int 2019, PyVal.int 2021, PyVal.int 2022, PyVal.int 2023,
        PyVal.int 2024]),
      ("note", PyVal.str "No 2020 data due to COVID-19"),
      ("assessment_system", PyVal.str "CMAS")]
    rfl (Or.inl rfl) rfl

/-- C3: the foreign-package handle is a lazy singleton: the initial state
is uninitialized and stays so under no calls, the first call to any public
operation initializes it to the loaded package, `importr` runs exactly
once on any nonempty call sequence from the fresh state and never again
once the handle is stored, and the stored handle is never replaced by any
further sequence of operations. -/
theorem lazy_singleton_handle (imp p : RWorld) (c : OpCall)
    (cs : List OpCall) :
    runOps imp [] none = none ∧
    runOps imp (c :: cs) (none : PkgSt) = some imp ∧
    loadCount imp (c :: cs) (none : PkgSt) = 1 ∧
    runOps imp cs (some p) = some p ∧
    loadCount imp cs (some p) = 0 := by
  refine ⟨rfl, ?_, ?_, runOps_some imp p cs, loadCount_some imp p cs⟩
  · show runOps imp cs (runOp imp c none).2 = some imp
    rw [runOp_state]
    exact runOps_some imp imp cs
  · show (if (none : PkgSt).isNone then 1 else 0) +
      loadCount imp cs (runOp imp c none).2 = 1
    rw [runOp_state]
    simp [loadCount_some]

/-- C4: no public operation catches or translates exceptions: with every
foreign function raising `e`, every operation returns exactly `e`, whether
the load is fresh or the erroring package is the stored handle; and the
two availability lookups are the bind of the foreign call with the
shape-sniffing normalization, so foreign and sniffing errors alike
propagate unchanged with no retry or substitute value. -/
theorem errors_propagate_unchanged (e : PyErr) (c : OpCall)
    (w imp : RWorld) (s : PkgSt) :
    (runOp (errWorld e) c none).1 = errOutcome c e ∧
    (runOp imp c (some (errWorld e))).1 = errOutcome c e ∧
    (get_available_years w s).1 =
      ((get_pkg w s).1.get_available_years).bind get_available_years_norm ∧
    (get_available_assessment_years w s).1 =
      ((get_pkg w s).1.get_available_assessment_years).bind
        get_available_assessment_years_norm := by
  refine ⟨?_, ?_, rfl, rfl⟩
  · cases c <;> rfl
  · cases c <;> rfl

/-- C5 counterexample: not every public operation returns the foreign
tabular result as a dataframe — `get_available_years` succeeds against a
well-formed world yet returns a plain dict outcome, not a dataframe. -/
theorem passthrough_dataframe_counterexample :
    isDFOutcome (runOp demoWorld OpCall.getAvailYears none).1 = false ∧
    (runOp demoWorld OpCall.getAvailYears none).1 =
      OpResult.dict (Except.ok
        [("min_year", PyVal.int 1991), ("max_year", PyVal.int 2025)]) :=
  ⟨rfl, rfl⟩

/-- C5 (amended): each of the five tabular operations invokes exactly its
one foreign function — forwarding the year unchanged, a year list as an
order- and length-preserving integer vector, and a dataframe through the
pandas-to-R conversion — and returns the foreign tabular result converted
to a pandas dataframe; the two availability operations invoke their single
foreign lookup but return the shape-sniffed plain mapping instead of a
dataframe. -/
theorem passthrough_operations (w : RWorld) (y : Int) (ys : List Int)
    (d : DataFrame) (subj : String) (td : Bool) (s : PkgSt) :
    (fetch_enr w y s).1 = ((get_pkg w s).1.fetch_enr y).map toPandas ∧
    (fetch_enr_multi w ys s).1 =
      ((get_pkg w s).1.fetch_enr_multi (intVectorOf ys)).map toPandas ∧
    (intVectorOf ys).elts = ys ∧
    (tidy_enr w d s).1 =
      ((get_pkg w s).1.tidy_enr (py2rpy d)).map toPandas ∧
    (fetch_assessment w y subj td s).1 =
      ((get_pkg w s).1.fetch_assessment y subj td).map toPandas ∧
    (fetch_assessment_multi w ys subj td s).1 =
      ((get_pkg w s).1.fetch_assessment_multi (intVectorOf ys) subj
        td).map toPandas ∧
    (get_available_years w s).1 =
      ((get_pkg w s).1.get_available_years).bind
        get_available_years_norm ∧
    (get_available_assessment_years w s).1 =
      ((get_pkg w s).1.get_available_assessment_years).bind
        get_available_assessment_years_norm :=
  ⟨rfl, rfl, rfl, rfl, rfl, rfl, rfl, rfl⟩

/-- C6: every public operation leaves all wrapper state other than the
lazily-initialized handle unchanged — the state change of any operation is
exactly `_get_pkg`'s — and once the handle is set no operation modifies
it: after initialization a call behaves identically no matter which
operations ran before it. -/
theorem stateless_after_init (imp p : RWorld) (c : OpCall)
    (cs : List OpCall) (s : PkgSt) :
    (runOp imp c (some p)).2 = some p ∧
    runOp imp c (runOps imp cs (some p)) = runOp imp c (some p) ∧
    (runOp imp c s).2 = (get_pkg imp s).2 := by
  refine ⟨?_, ?_, ?_⟩
  · simpa using runOp_state imp c (some p)
  · rw [runOps_some]
  · rw [runOp_state, get_pkg_eq]

/-- C7 counterexample: neither assessment-fetch operation forwards a
dataframe to the foreign function — their marshalled argument lists
contain no converted dataframe. -/
theorem assessment_args_counterexample :
    (forwardedArgs (OpCall.fetchAssessment 2024 "all" true)).any isRdfArg
      = false ∧
    (forwardedArgs
        (OpCall.fetchAssessmentMulti [2023, 2024] "all" true)).any isRdfArg
      = false :=
  ⟨rfl, rfl⟩

/-- C7 (amended): the single-year assessment fetch forwards the year, the
subject string and the tidy flag; the multi-year variant forwards an
integer vector of the years, the subject string and the tidy flag; no
dataframe is among the forwarded arguments; and both return the foreign
tabular result converted to a dataframe. -/
theorem assessment_forwards_scalars (w : RWorld) (y : Int)
    (ys : List Int) (subj : String) (td : Bool) (s : PkgSt) :
    forwardedArgs (OpCall.fetchAssessment y subj td) =
      [RArg.intArg y, RArg.strArg subj, RArg.boolArg td] ∧
    forwardedArgs (OpCall.fetchAssessmentMulti ys subj td) =
      [RArg.vecArg (intVectorOf ys), RArg.strArg subj, RArg.boolArg td] ∧
    (forwardedArgs (OpCall.fetchAssessment y subj td)).any isRdfArg
      = false ∧
    (forwardedArgs (OpCall.fetchAssessmentMulti ys subj td)).any isRdfArg
      = false ∧
    isDFOutcome (runOp w (OpCall.fetchAssessment y subj td) s).1 = true ∧
    isDFOutcome (runOp w (OpCall.fetchAssessmentMulti ys subj td) s).1
      = true ∧
    (fetch_assessment w y subj td s).1 =
      ((get_pkg w s).1.fetch_assessment y subj td).map toPandas ∧
    (fetch_assessment_multi w ys subj td s).1 =
      ((get_pkg w s).1.fetch_assessment_multi (intVectorOf ys) subj
        td).map toPandas :=
  ⟨rfl, rfl, rfl, rfl, rfl, rfl, rfl, rfl⟩

/-- C8: the public surface is exactly the seven exported callable
operations — the export list has seven distinct names and each names one
of the embedded operations, in order — plus the version string. -/
theorem public_surface_seven :
    dunder_all.length = 7 ∧ dunder_all.Nodup ∧
    sampleCalls.map opName = dunder_all ∧ version = "0.1.0" :=
  ⟨rfl, by decide, rfl, rfl⟩

/-- C9: when the foreign result is neither a dict nor rx2-indexable but
its names attribute (directly or after calling it) resolves to `None`,
`get_available_years` raises `ValueError` with the message
"R result has no names attribute" instead of returning a mapping. -/
theorem names_none_raises_value_error (r : RObj)
    (h1 : r.isDict = false) (h2 : r.hasRx2 = false)
    (h3 : r.names = NamesAttr.attrNone ∨ r.names = NamesAttr.callableNone) :
    get_available_years_norm r =
      Except.error (PyErr.valueError "R result has no names attribute") := by
  rcases h3 with h3 | h3 <;>
    simp [get_available_years_norm, h1, h2, h3]

/-- Witness for C9 at a concrete record with a `None` names attribute. -/
theorem names_none_raises_value_error_witness :
    get_available_years_norm
        (RObj.mk false false NamesAttr.attrNone [] true) =
      Except.error (PyErr.valueError "R result has no names attribute") :=
  names_none_raises_value_error
    (RObj.mk false false NamesAttr.attrNone [] true) rfl rfl (Or.inl rfl)

/-- C10: on every successful return path, `get_available_years` returns
the dict whose min_year and max_year values are plain integers. -/
theorem years_values_plain_ints (r : RObj) (res : PyDict)
    (h : get_available_years_norm r = Except.ok res) :
    ∃ a b : Int,
      res = [("min_year", PyVal.int a), ("max_year", PyVal.int b)] :=
  years_ok_shape r res h

/-- Witness for C10 at the well-formed rx2 year-range record. -/
theorem years_values_plain_ints_witness :
    ∃ a b : Int,
      [("min_year", PyVal.int 1991), ("max_year", PyVal.int 2025)] =
        [("min_year", PyVal.int a), ("max_year", PyVal.int b)] :=
  years_values_plain_ints okYearsObj
    [("min_year", PyVal.int 1991), ("max_year", PyVal.int 2025)] rfl

end PyCoSchoolData
